import Mathlib

/-!
Shallow embedding of the Atlas Weather plugin's data-freshness core:
the per-location weather cache with TTL expiry, the refresh throttle,
the debounced refresh trigger, and the freshness-controller effects of
the `WeatherPage` component.

Timestamps are wall-clock milliseconds (`Date.now()`), modelled as `Int`.
The weather payload is opaque to the core, modelled as a type parameter `α`.
Each effect invocation is modelled at a single time instant `now`: the
source performs all its map accesses synchronously within one event-loop
step. JavaScript truthiness is modelled where the source relies on it
(a number `0` and the empty string are falsy).
-/

namespace AtlasWeather

/-- One cache entry: `{ data, timestamp, locationId }`. -/
structure CachedWeatherData (α : Type) where
  data : α
  timestamp : Int
  locationId : String
  deriving Repr, DecidableEq

/-- The module-level `weatherCache` map, keyed by location id. -/
abbrev WeatherCache (α : Type) := String → Option (CachedWeatherData α)

/-- The cache created empty at plugin load. -/
def emptyWeatherCache {α : Type} : WeatherCache α := fun _ => none

/-- `CACHE_TTL_MS = 5 * 60 * 1000`. -/
def CACHE_TTL_MS : Int := 5 * 60 * 1000

/-- `getCachedWeather`: returns the entry unless absent or expired; an
expired entry is deleted from the map. Returns the read result together
with the cache map after the call. -/
def getCachedWeather {α : Type} (now : Int) (cache : WeatherCache α)
    (locationId : String) : Option (CachedWeatherData α) × WeatherCache α :=
  match cache locationId with
  | none => (none, cache)
  | some cached =>
    if now - cached.timestamp > CACHE_TTL_MS then
      (none, fun k => if k = locationId then none else cache k)
    else
      (some cached, cache)

/-- `setCachedWeather`: inserts or overwrites the entry for `locationId`
with the current timestamp. -/
def setCachedWeather {α : Type} (now : Int) (cache : WeatherCache α)
    (locationId : String) (data : α) : WeatherCache α :=
  fun k => if k = locationId then some ⟨data, now, locationId⟩ else cache k

/-- `isCacheStale`: true when no entry exists or the entry's age exceeds
the TTL. The body only reads the map; the returned map is the unchanged
input, recorded to contrast with `getCachedWeather`'s eviction. -/
def isCacheStale {α : Type} (now : Int) (cache : WeatherCache α)
    (locationId : String) : Bool × WeatherCache α :=
  match cache locationId with
  | none => (true, cache)
  | some cached => (decide (now - cached.timestamp > CACHE_TTL_MS), cache)

/-- The module-level `lastRefreshTimestamp` map. -/
abbrev Throttle := String → Option Int

/-- The throttle map created empty at plugin load. -/
def emptyThrottle : Throttle := fun _ => none

/-- `REFRESH_COOLDOWN_MS = 30 * 1000`. -/
def REFRESH_COOLDOWN_MS : Int := 30 * 1000

/-- `canRefresh`: true when no record exists or the elapsed time since the
recorded initiation exceeds the cooldown. The source's `if (!lastRefresh)`
also treats a stored timestamp `0` as missing (JavaScript falsiness). -/
def canRefresh (now : Int) (m : Throttle) (locationId : String) : Bool :=
  match m locationId with
  | none => true
  | some lastRefresh =>
    if lastRefresh = 0 then true
    else decide (now - lastRefresh > REFRESH_COOLDOWN_MS)

/-- `recordRefresh`: sets the record for `locationId` to now. -/
def recordRefresh (now : Int) (m : Throttle) (locationId : String) : Throttle :=
  fun k => if k = locationId then some now else m k

/-- State of one `debounce(func, wait)` instance: the pending timer, as
the absolute time at which it fires together with the captured argument
(`timeoutId` plus the closure's `args`). -/
structure DebounceState (α : Type) where
  timeout : Option (Int × α)
  deriving Repr, DecidableEq

/-- One invocation of the trigger returned by `debounce`: any pending
timer is cleared (`clearTimeout`) and a new one is scheduled for
`now + wait` with the current argument. -/
def debounceCall {α : Type} (wait : Int) (now : Int) (arg : α)
    (_st : DebounceState α) : DebounceState α :=
  { timeout := some (now + wait, arg) }

/-- Runs a timestamped sequence of trigger invocations against the timer
queue: before each invocation, a pending timer whose fire time has been
reached fires (invoking `func` with the captured argument); the invocation
then reschedules. Returns the fired `(time, argument)` events in order and
the final timer state. -/
def debounceRun {α : Type} (wait : Int) :
    DebounceState α → List (Int × α) → List (Int × α) × DebounceState α
  | st, [] => ([], st)
  | st, (t, a) :: rest =>
    let fires : List (Int × α) :=
      match st.timeout with
      | some (ft, fa) => if ft ≤ t then [(ft, fa)] else []
      | none => []
    let next := debounceRun wait (debounceCall wait t a st) rest
    (fires ++ next.1, next.2)

/-- The firing that remains once no further trigger invocation arrives:
a pending timer eventually fires at its scheduled time. -/
def debounceDrain {α : Type} (st : DebounceState α) : List (Int × α) :=
  match st.timeout with
  | some (ft, fa) => [(ft, fa)]
  | none => []

/-- All downstream `func` invocations produced by a timestamped sequence
of trigger calls, starting from a fresh `debounce` instance. -/
def debounceFires {α : Type} (wait : Int) (calls : List (Int × α)) :
    List (Int × α) :=
  (debounceRun wait ⟨none⟩ calls).1 ++ debounceDrain (debounceRun wait ⟨none⟩ calls).2

/-- Every listed call happens strictly less than `wait` after `prev`,
chaining through consecutive calls. -/
def gapsOk {α : Type} (wait : Int) : Int → List (Int × α) → Bool
  | _, [] => true
  | prev, (t, _) :: rest => decide (t - prev < wait) && gapsOk wait t rest

/-- Consecutive calls of the sequence are separated by strictly less than
`wait` milliseconds. -/
def isBurst {α : Type} (wait : Int) : List (Int × α) → Bool
  | [] => true
  | (t, _) :: rest => gapsOk wait t rest

/-- A saved or device location, reduced to the field the core reads. -/
structure Location where
  id : String
  deriving Repr, DecidableEq

/-- `LAST_LOCATION_KEY`. -/
def LAST_LOCATION_KEY : String := "lastViewedWeatherLocation"

/-- The location id the two data effects key on:
`weatherLocationId || (currentLocation ? 'current-location' : homeLocation?.id) || 'default'`
(empty strings and a missing home location are falsy). -/
def effectiveLocationId (weatherLocationId : String)
    (currentLocation homeLocation : Option Location) : String :=
  if weatherLocationId != "" then weatherLocationId
  else
    match currentLocation with
    | some _ => "current-location"
    | none =>
      match homeLocation with
      | some hl => if hl.id != "" then hl.id else "default"
      | none => "default"

/-- The `initializeLocation` routine of the initial-selection effect: the
returned value is the argument of the `setWeatherLocationId` call it makes,
if any. `lastLocation` is the value read back from storage under
`LAST_LOCATION_KEY`. -/
def initializeLocation (weatherLocationId : String) (lastLocation : Option String)
    (savedLocations : List Location)
    (currentLocation homeLocation : Option Location) : Option String :=
  if weatherLocationId != "" then none
  else
    let restored : Option String :=
      match lastLocation with
      | none => none
      | some s =>
        if s != "" then
          let isValidSaved := savedLocations.any fun loc => loc.id == s
          let isCurrentLocation := s == "current-location" && currentLocation.isSome
          let isHome :=
            match homeLocation with
            | some hl => s == hl.id
            | none => false
          if isValidSaved || isCurrentLocation || isHome then some s else none
        else none
    match restored with
    | some s => some s
    | none =>
      match currentLocation with
      | some _ => some "current-location"
      | none =>
        match homeLocation with
        | some hl => some hl.id
        | none => none

/-- The save-location effect: when the active location is non-empty it is
written to storage; the returned value is the `(key, value)` of the
`api.storage.set` call it makes, if any. -/
def saveLocationEffect (weatherLocationId : String) : Option (String × String) :=
  if weatherLocationId != "" then some (LAST_LOCATION_KEY, weatherLocationId)
  else none

/-- The controller state the `WeatherPage` effects read and write: the two
module-level maps, the `cachedWeatherDisplay` and `isRevalidating` React
state, and the debounce instance held in `debouncedRefreshRef`. -/
structure ControllerState (α : Type) where
  cache : WeatherCache α
  throttle : Throttle
  cachedWeatherDisplay : Option α
  isRevalidating : Bool
  debounce : DebounceState String

/-- The action wrapped by `debounce` inside `debouncedRefresh`: when the
debounced timer fires for `locId` it checks the throttle, and only when
allowed records the refresh, raises the revalidating flag and calls
`refreshWeather(locId)`. The second component is the argument of the
`refreshWeather` call it makes, if any. -/
def debouncedRefreshAction {α : Type} (now : Int) (locId : String)
    (st : ControllerState α) : ControllerState α × Option String :=
  if canRefresh now st.throttle locId then
    ({ st with
        throttle := recordRefresh now st.throttle locId,
        isRevalidating := true },
     some locId)
  else
    (st, none)

/-- The stale-while-revalidate effect, run on every active-location change:
reads the cache (evicting an expired entry); when an entry is returned it
is displayed and, were it also stale, a debounced refresh would be
scheduled; when absent the display is cleared, the revalidating flag is
raised, and a direct un-debounced fetch is initiated when the throttle
allows. The second component is the argument of the `refreshWeather` call
it makes, if any (`none` inside meaning `undefined`). -/
def swrEffect {α : Type} (now : Int) (weatherLocationId : String)
    (currentLocation homeLocation : Option Location) (st : ControllerState α) :
    ControllerState α × Option (Option String) :=
  let locationId := effectiveLocationId weatherLocationId currentLocation homeLocation
  let read := getCachedWeather now st.cache locationId
  match read.1 with
  | some cached =>
    let st' := { st with cache := read.2, cachedWeatherDisplay := some cached.data }
    if (isCacheStale now read.2 locationId).1 then
      ({ st' with debounce := debounceCall 300 now locationId st.debounce }, none)
    else
      (st', none)
  | none =>
    let st' := { st with cache := read.2, cachedWeatherDisplay := none,
                         isRevalidating := true }
    if canRefresh now st.throttle locationId then
      ({ st' with throttle := recordRefresh now st.throttle locationId },
       some (if locationId = "default" then none else some locationId))
    else
      (st', none)

/-- The payload-arrival effect, run whenever the host's `weather` value (or
a dependency) changes: a truthy payload is cached under the *currently
effective* location id, displayed, and the revalidating flag is cleared. -/
def weatherArrivalEffect {α : Type} (now : Int) (weatherLocationId : String)
    (currentLocation homeLocation : Option Location) (weather : Option α)
    (st : ControllerState α) : ControllerState α :=
  match weather with
  | none => st
  | some w =>
    let locationId := effectiveLocationId weatherLocationId currentLocation homeLocation
    { st with
        cache := setCachedWeather now st.cache locationId w,
        cachedWeatherDisplay := some w,
        isRevalidating := false }

/-- `displayWeather = cachedWeatherDisplay || weather` (payload objects are
truthy). -/
def displayWeather {α : Type} (cachedWeatherDisplay weather : Option α) : Option α :=
  match cachedWeatherDisplay with
  | some c => some c
  | none => weather

/-- JavaScript truthiness of the host's `weatherError` string. -/
def errTruthy (weatherError : Option String) : Bool :=
  match weatherError with
  | none => false
  | some s => s != ""

/-- The render guard `if (weatherError && !displayWeather)` selecting the
dedicated error view. -/
def rendersErrorView {α : Type} (weatherError : Option String)
    (cachedWeatherDisplay weather : Option α) : Bool :=
  errTruthy weatherError && (displayWeather cachedWeatherDisplay weather).isNone

/-- The per-key invariant of the cache map: every stored entry records the
key it is stored under in its `locationId` field. -/
def CacheWf {α : Type} (cache : WeatherCache α) : Prop :=
  ∀ k e, cache k = some e → e.locationId = k

/-- The fallback chain of the initial-selection effect: device location if
available, else home location, else nothing. -/
def restoreFallback (currentLocation homeLocation : Option Location) : Option String :=
  match currentLocation with
  | some _ => some "current-location"
  | none =>
    match homeLocation with
    | some hl => some hl.id
    | none => none

/-- The condition under which a stored id is restored: it names a currently
saved location, or the `"current-location"` pseudo-id while a device
location is present, or the home location. -/
def restoreValid (s : String) (savedLocations : List Location)
    (currentLocation homeLocation : Option Location) : Prop :=
  (∃ loc ∈ savedLocations, loc.id = s) ∨
  (s = "current-location" ∧ currentLocation.isSome = true) ∨
  (∃ hl, homeLocation = some hl ∧ s = hl.id)

/-- A small concrete controller state: both maps empty, nothing displayed. -/
def sampleState : ControllerState Nat :=
  { cache := emptyWeatherCache
    throttle := emptyThrottle
    cachedWeatherDisplay := none
    isRevalidating := false
    debounce := ⟨none⟩ }

/-- Controller state while `"tokyo"` is active and a fetch initiated
earlier for `"paris"` is still in flight: the cache holds paris data from
an earlier view, and tokyo's payload is on display. -/
def raceState : ControllerState String :=
  { cache := fun k => if k = "paris" then some ⟨"paris-old", 0, "paris"⟩ else none
    throttle := emptyThrottle
    cachedWeatherDisplay := some "tokyo-shown"
    isRevalidating := true
    debounce := ⟨none⟩ }

/-- Controller state holding a cache entry for `"paris"` put at time 0;
read at time 301000 its age is 301s, past the TTL. -/
def staleState : ControllerState String :=
  { cache := fun k => if k = "paris" then some ⟨"paris-old", 0, "paris"⟩ else none
    throttle := emptyThrottle
    cachedWeatherDisplay := none
    isRevalidating := false
    debounce := ⟨none⟩ }

/-- C3: `getCachedWeather` returns the stored entry exactly when one is
present with age at most the 300s TTL (in particular, after a `put` at
time `t` it returns that entry whenever `now - t ≤ TTL` and absent
otherwise), and an over-TTL entry is removed from the map as a side
effect, other keys untouched. -/
theorem getCachedWeather_spec {α : Type} (now : Int) (cache : WeatherCache α)
    (id : String) :
    (∀ e, (getCachedWeather now cache id).1 = some e ↔
        cache id = some e ∧ now - e.timestamp ≤ CACHE_TTL_MS) ∧
    (cache id = none → getCachedWeather now cache id = (none, cache)) ∧
    (∀ e, cache id = some e → now - e.timestamp > CACHE_TTL_MS →
        (getCachedWeather now cache id).1 = none ∧
        (getCachedWeather now cache id).2 id = none ∧
        ∀ k, k ≠ id → (getCachedWeather now cache id).2 k = cache k) ∧
    (∀ (t : Int) (d : α), now - t ≤ CACHE_TTL_MS →
        (getCachedWeather now (setCachedWeather t cache id d) id).1 = some ⟨d, t, id⟩) ∧
    (∀ (t : Int) (d : α), now - t > CACHE_TTL_MS →
        (getCachedWeather now (setCachedWeather t cache id d) id).1 = none) := by
  refine ⟨?_, ?_, ?_, ?_, ?_⟩
  · intro e
    cases h : cache id with
    | none => simp [getCachedWeather, h]
    | some c =>
      by_cases hexp : now - c.timestamp > CACHE_TTL_MS
      · simp only [getCachedWeather, h, if_pos hexp]
        constructor
        · intro he; exact absurd he (by simp)
        · rintro ⟨he, hage⟩
          cases he
          omega
      · simp only [getCachedWeather, h, if_neg hexp]
        constructor
        · rintro he
          cases he
          exact ⟨rfl, by omega⟩
        · rintro ⟨he, _⟩
          cases he
          rfl
  · intro h
    simp [getCachedWeather, h]
  · intro e he hexp
    refine ⟨?_, ?_, ?_⟩
    · simp [getCachedWeather, he, if_pos hexp]
    · simp [getCachedWeather, he, if_pos hexp]
    · intro k hk
      simp [getCachedWeather, he, if_pos hexp, hk]
  · intro t d hage
    have hne : ¬ (now - t > CACHE_TTL_MS) := by omega
    simp [getCachedWeather, setCachedWeather, hne]
  · intro t d hage
    simp [getCachedWeather, setCachedWeather, hage]

/-- C3 witness: a `put` at time 0 is returned by `get` at time 100000
(age 100s, within the TTL). -/
theorem getCachedWeather_spec_witness :
    (getCachedWeather 100000
        (setCachedWeather 0 (emptyWeatherCache (α := Nat)) "nyc" 7) "nyc").1
      = some ⟨7, 0, "nyc"⟩ :=
  (getCachedWeather_spec 100000 emptyWeatherCache "nyc").2.2.2.1 0 7 (by decide)

/-- C4: `isCacheStale` is true exactly when no entry exists or the entry's
age exceeds the 300s TTL, and it leaves the cache map unchanged (it never
evicts), in contrast to `getCachedWeather`. -/
theorem isCacheStale_spec {α : Type} (now : Int) (cache : WeatherCache α)
    (id : String) :
    ((isCacheStale now cache id).1 = true ↔
        cache id = none ∨ ∃ e, cache id = some e ∧ now - e.timestamp > CACHE_TTL_MS) ∧
    (isCacheStale now cache id).2 = cache := by
  constructor
  · cases h : cache id with
    | none => simp [isCacheStale, h]
    | some c => simp [isCacheStale, h]
  · cases h : cache id with
    | none => simp [isCacheStale, h]
    | some c => simp [isCacheStale, h]

/-- C5: `canRefresh` is true exactly when no record exists or the elapsed
time since the recorded initiation exceeds the 30s cooldown; it is false
immediately after `recordRefresh`, and can only be true again once at
least 30s have elapsed. (Recorded timestamps are positive: `Date.now()`
is, and the source's `if (!lastRefresh)` reads a stored 0 as missing.) -/
theorem canRefresh_spec (now now' : Int) (m : Throttle) (id : String)
    (hnow : 0 < now) (hpos : ∀ t, m id = some t → 0 < t) :
    (canRefresh now m id = true ↔
        m id = none ∨ ∃ t, m id = some t ∧ now - t > REFRESH_COOLDOWN_MS) ∧
    canRefresh now (recordRefresh now m id) id = false ∧
    (canRefresh now' (recordRefresh now m id) id = true →
        REFRESH_COOLDOWN_MS ≤ now' - now) := by
  refine ⟨?_, ?_, ?_⟩
  · cases h : m id with
    | none => simp [canRefresh, h]
    | some t =>
      have ht : ¬ (t = 0) := by have := hpos t h; omega
      simp [canRefresh, h, ht]
  · have hne : ¬ (now = 0) := by omega
    simp [canRefresh, recordRefresh, hne, REFRESH_COOLDOWN_MS]
  · intro hc
    have hne : ¬ (now = 0) := by omega
    simp [canRefresh, recordRefresh, hne] at hc
    omega

/-- C5 witness: recorded at time 1000, `canRefresh` is false at that very
moment. -/
theorem canRefresh_spec_witness :
    (0 : Int) < 1000 ∧
    canRefresh 1000 (recordRefresh 1000 emptyThrottle "nyc") "nyc" = false :=
  ⟨by decide,
   (canRefresh_spec 1000 40000 emptyThrottle "nyc" (by decide)
      (fun t h => by simp [emptyThrottle] at h)).2.1⟩

/-- C10: every stored entry's `locationId` field equals its key; the
invariant holds for the empty map and is preserved by `setCachedWeather`,
by `getCachedWeather`'s lazy eviction, and by `isCacheStale`. -/
theorem cacheWf_invariant {α : Type} :
    CacheWf (emptyWeatherCache (α := α)) ∧
    (∀ (now : Int) (cache : WeatherCache α) (id : String) (d : α),
        CacheWf cache → CacheWf (setCachedWeather now cache id d)) ∧
    (∀ (now : Int) (cache : WeatherCache α) (id : String),
        CacheWf cache → CacheWf (getCachedWeather now cache id).2) ∧
    (∀ (now : Int) (cache : WeatherCache α) (id : String),
        CacheWf cache → CacheWf (isCacheStale now cache id).2) := by
  refine ⟨?_, ?_, ?_, ?_⟩
  · intro k e h
    simp [emptyWeatherCache] at h
  · intro now cache id d hwf k e h
    by_cases hk : k = id
    · subst hk
      simp [setCachedWeather] at h
      simp [← h]
    · simp [setCachedWeather, hk] at h
      exact hwf k e h
  · intro now cache id hwf k e h
    cases hc : cache id with
    | none =>
      simp [getCachedWeather, hc] at h
      exact hwf k e h
    | some c =>
      by_cases hexp : now - c.timestamp > CACHE_TTL_MS
      · simp only [getCachedWeather, hc, if_pos hexp] at h
        by_cases hk : k = id
        · subst hk; simp at h
        · simp [hk] at h
          exact hwf k e h
      · simp only [getCachedWeather, hc, if_neg hexp] at h
        exact hwf k e h
  · intro now cache id hwf k e h
    cases hc : cache id with
    | none =>
      simp [isCacheStale, hc] at h
      exact hwf k e h
    | some c =>
      simp [isCacheStale, hc] at h
      exact hwf k e h

/-- C10 witness: the invariant, established for the empty map, is carried
through a `put`. -/
theorem cacheWf_invariant_witness :
    CacheWf (setCachedWeather 5 (emptyWeatherCache (α := Nat)) "nyc" 7) :=
  cacheWf_invariant.2.1 5 emptyWeatherCache "nyc" 7
    (fun k e h => by simp [emptyWeatherCache] at h)

/-- With a timer pending for `prev + wait` and every further call following
its predecessor by strictly less than `wait`, no timer fires during the
sequence and the last call is left pending. -/
theorem debounceRun_gapsOk {α : Type} (wait : Int) (calls : List (Int × α)) :
    ∀ (prev : Int) (a : α), gapsOk wait prev calls = true →
      debounceRun wait ⟨some (prev + wait, a)⟩ calls
        = ([], ⟨some ((calls.getLastD (prev, a)).1 + wait,
                      (calls.getLastD (prev, a)).2)⟩) := by
  induction calls with
  | nil =>
    intro prev a _
    simp [debounceRun, List.getLastD]
  | cons hd rest ih =>
    obtain ⟨t, b⟩ := hd
    intro prev a h
    simp only [gapsOk, Bool.and_eq_true, decide_eq_true_eq] at h
    have hnof : ¬ (prev + wait ≤ t) := by omega
    simp only [debounceRun, debounceCall, hnof, if_false, List.getLastD_cons]
    rw [ih t b h.2]
    simp

/-- C6: a burst of `N ≥ 1` trigger calls, each consecutive pair separated
by strictly less than the delay, invokes the action exactly once, with the
last call's argument, `wait` after the last call; and every call replaces
whatever invocation was pending with its own. -/
theorem debounce_burst {α : Type} (wait : Int) (calls : List (Int × α))
    (h : calls ≠ []) (hb : isBurst wait calls = true) :
    (∀ (st : DebounceState α) (now : Int) (arg : α),
        (debounceCall wait now arg st).timeout = some (now + wait, arg)) ∧
    debounceFires wait calls
      = [((calls.getLast h).1 + wait, (calls.getLast h).2)] := by
  refine ⟨fun _ _ _ => rfl, ?_⟩
  match calls, h with
  | (t, a) :: rest, _ =>
    simp only [isBurst] at hb
    have hrun := debounceRun_gapsOk wait rest t a hb
    simp only [debounceFires, debounceRun, debounceCall]
    rw [hrun]
    simp [debounceDrain, List.getLast_eq_getLastD]

/-- C6 witness: three calls 100ms then 150ms apart collapse to a single
firing 300ms after the last call, carrying its argument. -/
theorem debounce_burst_witness :
    ([(0, "a"), (100, "b"), (250, "c")] : List (Int × String)) ≠ [] ∧
    isBurst 300 ([(0, "a"), (100, "b"), (250, "c")] : List (Int × String)) = true ∧
    debounceFires 300 ([(0, "a"), (100, "b"), (250, "c")] : List (Int × String))
      = [(550, "c")] := by
  refine ⟨by simp, by decide, ?_⟩
  have h2 := (debounce_burst 300 [(0, "a"), (100, "b"), (250, "c")]
      (by simp) (by decide)).2
  rw [h2]
  decide

/-- C7: when the debounced refresh action fires for `locId` it consults
the throttle first: refused, it neither fetches nor records a refresh;
allowed, it records the refresh and initiates the fetch for `locId`
(raising the revalidating flag). -/
theorem debouncedRefreshAction_spec {α : Type} (now : Int) (locId : String)
    (st : ControllerState α) :
    (canRefresh now st.throttle locId = false →
        debouncedRefreshAction now locId st = (st, none)) ∧
    (canRefresh now st.throttle locId = true →
        debouncedRefreshAction now locId st =
          ({ st with throttle := recordRefresh now st.throttle locId,
                     isRevalidating := true }, some locId)) := by
  constructor
  · intro h
    simp [debouncedRefreshAction, h]
  · intro h
    simp [debouncedRefreshAction, h]

/-- C7 witness: against an empty throttle the fired action records and
fetches. -/
theorem debouncedRefreshAction_spec_witness :
    canRefresh 1000 sampleState.throttle "nyc" = true ∧
    debouncedRefreshAction 1000 "nyc" sampleState =
      ({ sampleState with throttle := recordRefresh 1000 sampleState.throttle "nyc",
                          isRevalidating := true }, some "nyc") :=
  ⟨rfl, (debouncedRefreshAction_spec 1000 "nyc" sampleState).2 rfl⟩

/-- C9: the dedicated error view is rendered exactly when a (non-empty)
fetch error is present and no displayable payload exists; any displayable
payload, cached-for-display or live, is shown in preference to the
error. -/
theorem errorView_spec {α : Type} (weatherError : Option String)
    (cd w : Option α) (hmsg : ∀ s, weatherError = some s → s ≠ "") :
    (rendersErrorView weatherError cd w = true ↔
        weatherError ≠ none ∧ cd = none ∧ w = none) ∧
    (∀ p, cd = some p →
        displayWeather cd w = some p ∧
        rendersErrorView weatherError cd w = false) ∧
    (∀ p, cd = none → w = some p →
        displayWeather cd w = some p ∧
        rendersErrorView weatherError cd w = false) := by
  refine ⟨?_, ?_, ?_⟩
  · cases weatherError with
    | none => simp [rendersErrorView, errTruthy]
    | some s =>
      have hs := hmsg s rfl
      cases cd with
      | some c => simp [rendersErrorView, errTruthy, displayWeather, hs]
      | none =>
        cases w with
        | some ww => simp [rendersErrorView, errTruthy, displayWeather, hs]
        | none => simp [rendersErrorView, errTruthy, displayWeather, hs]
  · rintro p rfl
    simp [rendersErrorView, displayWeather]
  · rintro p rfl rfl
    simp [rendersErrorView, displayWeather]

/-- C9 witness: with an error reported and nothing displayable, the error
view is rendered. -/
theorem errorView_spec_witness :
    rendersErrorView (some "network down") (none : Option Nat) none = true :=
  ((errorView_spec (some "network down") (none : Option Nat) none
      (fun s h => by rw [Option.some_inj] at h; subst h; decide)).1).mpr
    ⟨by simp, rfl, rfl⟩

/-- C1 counterexample: with `"tokyo"` active, the payload of the slow
fetch initiated for `"paris"` arrives; the cache entry for `"paris"` is
not updated with it (it keeps the old data — the payload is filed under
`"tokyo"`), and the displayed payload is overwritten. -/
theorem weatherArrival_race_cex :
    (weatherArrivalEffect 301000 "tokyo" none none (some "paris-new")
        raceState).cache "paris" = some ⟨"paris-old", 0, "paris"⟩ ∧
    (weatherArrivalEffect 301000 "tokyo" none none (some "paris-new")
        raceState).cache "tokyo" = some ⟨"paris-new", 301000, "tokyo"⟩ ∧
    (weatherArrivalEffect 301000 "tokyo" none none (some "paris-new")
        raceState).cachedWeatherDisplay ≠ raceState.cachedWeatherDisplay := by
  refine ⟨rfl, rfl, by decide⟩

/-- C1 amended: a fresh payload arriving while the active location is `T`
(the fetch having been initiated for `P ≠ T`) is cached under the
currently active location `T`; the entry for `P` is left unchanged, and
the displayed payload is replaced by the arriving payload. -/
theorem weatherArrival_race {α : Type} (now : Int) (T P : String) (w : α)
    (st : ControllerState α) (hT : T ≠ "") (hPT : P ≠ T) :
    (weatherArrivalEffect now T none none (some w) st).cache T
        = some ⟨w, now, T⟩ ∧
    (weatherArrivalEffect now T none none (some w) st).cache P = st.cache P ∧
    (weatherArrivalEffect now T none none (some w) st).cachedWeatherDisplay
        = some w := by
  have hT' : effectiveLocationId T none none = T := by
    simp [effectiveLocationId, hT]
  refine ⟨?_, ?_, rfl⟩ <;>
    simp [weatherArrivalEffect, setCachedWeather, hT', hPT]

/-- C1 witness: the arriving paris payload lands in the cache under the
active id `"tokyo"`. -/
theorem weatherArrival_race_witness :
    ("tokyo" : String) ≠ "" ∧ ("paris" : String) ≠ "tokyo" ∧
    (weatherArrivalEffect 301000 "tokyo" none none (some "paris-new")
        raceState).cache "tokyo" = some ⟨"paris-new", 301000, "tokyo"⟩ :=
  ⟨by decide, by decide,
   (weatherArrival_race 301000 "tokyo" "paris" "paris-new" raceState
      (by decide) (by decide)).1⟩

/-- C2 counterexample: the active location changes to `"paris"` whose
cached entry is 301s old; the displayed payload is cleared rather than set
to the cached value, no debounced refresh is scheduled, and an immediate
un-debounced fetch is initiated instead. -/
theorem swrEffect_stale_cex :
    (swrEffect 301000 "paris" none none staleState).1.cachedWeatherDisplay
        = none ∧
    (swrEffect 301000 "paris" none none staleState).1.debounce.timeout = none ∧
    (swrEffect 301000 "paris" none none staleState).2 = some (some "paris") :=
  ⟨rfl, rfl, rfl⟩

/-- C2 amended: on an active-location change to `L` (non-empty and not the
`"default"` fallback key) whose cache entry's age strictly exceeds the
300s TTL, the entry is evicted and treated as absent: the display is
cleared, the revalidating flag is raised, no debounced refresh is
scheduled, and — the throttle allowing — an immediate un-debounced
refresh for `L` is recorded and initiated. -/
theorem swrEffect_expired {α : Type} (now : Int) (L : String)
    (st : ControllerState α) (e : CachedWeatherData α)
    (hL : L ≠ "") (hdef : L ≠ "default")
    (he : st.cache L = some e) (hexp : now - e.timestamp > CACHE_TTL_MS)
    (hcr : canRefresh now st.throttle L = true) :
    (swrEffect now L none none st).1.cachedWeatherDisplay = none ∧
    (swrEffect now L none none st).1.isRevalidating = true ∧
    (swrEffect now L none none st).1.cache L = none ∧
    (swrEffect now L none none st).1.debounce = st.debounce ∧
    (swrEffect now L none none st).1.throttle = recordRefresh now st.throttle L ∧
    (swrEffect now L none none st).2 = some (some L) := by
  have hL' : effectiveLocationId L none none = L := by
    simp [effectiveLocationId, hL]
  have hget : getCachedWeather now st.cache L
      = (none, fun k => if k = L then none else st.cache k) := by
    simp [getCachedWeather, he, if_pos hexp]
  refine ⟨?_, ?_, ?_, ?_, ?_, ?_⟩ <;>
    simp [swrEffect, hL', hget, hcr, hdef]

/-- C2 witness: the 301s-old paris entry is expired, and the effect clears
the display. -/
theorem swrEffect_expired_witness :
    ("paris" : String) ≠ "" ∧
    staleState.cache "paris" = some ⟨"paris-old", 0, "paris"⟩ ∧
    (301000 : Int) - (0 : Int) > CACHE_TTL_MS ∧
    (swrEffect 301000 "paris" none none staleState).1.cachedWeatherDisplay
        = none :=
  ⟨by decide, rfl, by decide,
   (swrEffect_expired 301000 "paris" staleState ⟨"paris-old", 0, "paris"⟩
      (by decide) (by decide) rfl (by decide) rfl).1⟩

/-- The boolean validity test of `initializeLocation` agrees with
`restoreValid`. -/
theorem restoreValid_iff (s : String) (savedLocations : List Location)
    (currentLocation homeLocation : Option Location) :
    ((savedLocations.any fun loc => loc.id == s) ||
     (s == "current-location" && currentLocation.isSome) ||
     (match homeLocation with
      | some hl => s == hl.id
      | none => false)) = true
      ↔ restoreValid s savedLocations currentLocation homeLocation := by
  cases homeLocation with
  | none =>
    simp [restoreValid, List.any_eq_true]
  | some hl =>
    simp [restoreValid, List.any_eq_true, or_assoc]

/-- C8: on initial mount the stored last-viewed id is restored exactly
when it still resolves (a saved location's id, the `"current-location"`
pseudo-id with a device location present, or the home location's id);
otherwise the fallback chain applies (device location, else home, else
nothing); with an active location already set the effect does nothing; and
the save effect writes every non-empty active location to storage under
the fixed key. -/
theorem initializeLocation_spec (lastLocation : Option String)
    (savedLocations : List Location)
    (currentLocation homeLocation : Option Location) :
    (∀ wl, wl ≠ "" →
        initializeLocation wl lastLocation savedLocations currentLocation
          homeLocation = none) ∧
    (∀ s, lastLocation = some s → s ≠ "" →
        restoreValid s savedLocations currentLocation homeLocation →
        initializeLocation "" lastLocation savedLocations currentLocation
          homeLocation = some s) ∧
    (∀ s, lastLocation = some s → s ≠ "" →
        ¬ restoreValid s savedLocations currentLocation homeLocation →
        initializeLocation "" lastLocation savedLocations currentLocation
          homeLocation = restoreFallback currentLocation homeLocation) ∧
    (lastLocation = none →
        initializeLocation "" lastLocation savedLocations currentLocation
          homeLocation = restoreFallback currentLocation homeLocation) ∧
    (∀ wl, wl ≠ "" → saveLocationEffect wl = some (LAST_LOCATION_KEY, wl)) ∧
    saveLocationEffect "" = none := by
  refine ⟨?_, ?_, ?_, ?_, ?_, ?_⟩
  · intro wl hwl
    simp [initializeLocation, hwl]
  · rintro s rfl hs hvalid
    rw [← restoreValid_iff] at hvalid
    simp [initializeLocation, hs, hvalid]
  · rintro s rfl hs hvalid
    rw [← restoreValid_iff] at hvalid
    simp only [Bool.not_eq_true] at hvalid
    simp only [initializeLocation, bne_self_eq_false, Bool.false_eq_true,
      if_false, hvalid, bne_iff_ne, ne_eq, hs, not_false_eq_true, if_true]
    cases currentLocation with
    | some c => simp [restoreFallback]
    | none =>
      cases homeLocation with
      | some hl => simp [restoreFallback]
      | none => simp [restoreFallback]
  · rintro rfl
    cases currentLocation with
    | some c => simp [initializeLocation, restoreFallback]
    | none =>
      cases homeLocation with
      | some hl => simp [initializeLocation, restoreFallback]
      | none => simp [initializeLocation, restoreFallback]
  · intro wl hwl
    simp [saveLocationEffect, hwl]
  · simp [saveLocationEffect]

/-- C8 witness: a stored id naming a still-saved location is restored, and
a non-empty active location is written under the fixed key. -/
theorem initializeLocation_spec_witness :
    ("paris" : String) ≠ "" ∧
    restoreValid "paris" [⟨"paris"⟩] none none ∧
    initializeLocation "" (some "paris") [⟨"paris"⟩] none none = some "paris" ∧
    saveLocationEffect "paris" = some (LAST_LOCATION_KEY, "paris") :=
  ⟨by decide, Or.inl ⟨⟨"paris"⟩, by simp, rfl⟩,
   (initializeLocation_spec (some "paris") [⟨"paris"⟩] none none).2.1 "paris"
      rfl (by decide) (Or.inl ⟨⟨"paris"⟩, by simp, rfl⟩),
   (initializeLocation_spec (some "paris") [⟨"paris"⟩] none none).2.2.2.2.1
      "paris" (by decide)⟩

end AtlasWeather
